import Mathlib

/-!
Shallow embedding of the kvii/mutex package (Windows cross-process named
mutex wrapper) for checking its natural-language specification.

The repository contains two variants of the same package:

* mutex_windows.go — the Releaser-struct variant: acquisition returns a
  Releaser value carrying an isAbandoned flag and a release closure
  (close the signal channel, then receive the worker's report).
* unnamed/part_000 — the function variant: acquisition returns a plain
  release function wrapped in sync.OnceValue, and an abandoned wait is
  surfaced as the error ErrWaitAbandoned with no release function.

Both variants share the same worker goroutine body, modelled here by
one function over an oracle that records the results of the native
Windows API calls (CreateMutex, WaitForSingleObject, ReleaseMutex).
The worker trace records which native calls the worker made, what it
sent on its outcome channel, and whether it blocked on the
release-signal channel; channel interaction after a successful
acquisition is modelled as an explicit state machine on SysState.
-/

namespace KviiMutex

/-- Native Windows error values as the Go code distinguishes them:
syscall.ERROR_ALREADY_EXISTS is the one creation error treated as
success, every other native error is opaque and identified by a code. -/
inductive NativeErr where
  | alreadyExists
  | other (code : Nat)
deriving DecidableEq, Repr

/-- Error values the package can hand to its caller: the three package
errors of mutex_windows.go / part_000 plus native errors passed through
verbatim. -/
inductive GoErr where
  | waitAbandoned
  | durationTooLong
  | waitTimeout
  | native (e : NativeErr)
deriving DecidableEq, Repr

/-- windows.INFINITE. -/
def INFINITE : Nat := 4294967295

/-- windows.WAIT_OBJECT_0. -/
def WAIT_OBJECT_0 : Nat := 0

/-- windows.WAIT_ABANDONED. -/
def WAIT_ABANDONED : Nat := 128

/-- windows.WAIT_TIMEOUT. -/
def WAIT_TIMEOUT : Nat := 258

/-- time.Millisecond in nanoseconds; a Go time.Duration is an int64
count of nanoseconds, modelled as Int. -/
def millisecondNs : Int := 1000000

/-- const max_WAIT_MILLISECONDS = time.Duration(windows.INFINITE * time.Millisecond). -/
def max_WAIT_MILLISECONDS : Int := (INFINITE : Int) * millisecondNs

/-- Go (time.Duration).Milliseconds(): int64 division by 1e6, truncating
toward zero. -/
def durMilliseconds (d : Int) : Int := Int.tdiv d millisecondNs

/-- Go uint32(x) conversion of an int64: two-complement wraparound
modulo 2^32, giving the nonnegative representative. -/
def toUint32 (x : Int) : Nat := (x % (2 ^ 32 : Int)).toNat

/-- Results of the three native calls one acquisition can make, as seen
by the worker goroutine: CreateMutex error (none = success),
WaitForSingleObject error and return value, ReleaseMutex error. -/
structure NativeOracle where
  createErr : Option NativeErr
  waitErr : Option NativeErr
  waitResult : Nat
  releaseErr : Option NativeErr
deriving DecidableEq, Repr

/-- Observable trace of one worker goroutine execution.
firstMsg is the first value sent on the outcome channel chE
(none = the goroutine never sent one, i.e. it panicked first;
some none = it sent a nil error). signalSent (a parameter of the
worker function) tells whether the release-signal channel ch is
eventually closed; when the worker blocks on ch and the signal never
comes, its deferred CloseHandle and close(chE) never run. -/
structure WorkerTrace where
  firstMsg : Option (Option GoErr)
  waitAttempted : Bool
  waitedForRelease : Bool
  releaseCount : Nat
  secondMsg : Option (Option GoErr)
  handleClosed : Bool
  panicked : Bool
deriving DecidableEq, Repr

/-- Worker body after a successful (or already-exists) CreateMutex:
WaitForSingleObject, the switch on its return value, and — on the
WAIT_OBJECT_0 branch only — the receive on ch followed by
ReleaseMutex and the second send on chE. -/
def workerAfterCreate (o : NativeOracle) (signalSent : Bool) : WorkerTrace :=
  match o.waitErr with
  | some e =>
    { firstMsg := some (some (GoErr.native e)), waitAttempted := true,
      waitedForRelease := false, releaseCount := 0, secondMsg := none,
      handleClosed := true, panicked := false }
  | none =>
    if o.waitResult = WAIT_ABANDONED then
      { firstMsg := some (some GoErr.waitAbandoned), waitAttempted := true,
        waitedForRelease := false, releaseCount := 0, secondMsg := none,
        handleClosed := true, panicked := false }
    else if o.waitResult = WAIT_OBJECT_0 then
      if signalSent then
        { firstMsg := some none, waitAttempted := true,
          waitedForRelease := true, releaseCount := 1,
          secondMsg := some (Option.map GoErr.native o.releaseErr),
          handleClosed := true, panicked := false }
      else
        { firstMsg := some none, waitAttempted := true,
          waitedForRelease := true, releaseCount := 0, secondMsg := none,
          handleClosed := false, panicked := false }
    else if o.waitResult = WAIT_TIMEOUT then
      { firstMsg := some (some GoErr.waitTimeout), waitAttempted := true,
        waitedForRelease := false, releaseCount := 0, secondMsg := none,
        handleClosed := true, panicked := false }
    else
      { firstMsg := none, waitAttempted := true,
        waitedForRelease := false, releaseCount := 0, secondMsg := none,
        handleClosed := true, panicked := true }

/-- The worker goroutine of acquire (identical body in both variants):
CreateMutex, early return on a creation error other than
ERROR_ALREADY_EXISTS (before the CloseHandle defer is installed),
otherwise workerAfterCreate. -/
def worker (o : NativeOracle) (signalSent : Bool) : WorkerTrace :=
  match o.createErr with
  | some e =>
    if e = NativeErr.alreadyExists then workerAfterCreate o signalSent
    else
      { firstMsg := some (some (GoErr.native e)), waitAttempted := false,
        waitedForRelease := false, releaseCount := 0, secondMsg := none,
        handleClosed := false, panicked := false }
  | none => workerAfterCreate o signalSent

/-- The first message the acquiring caller receives on chE; it does not
depend on whether the release signal is ever sent. -/
def firstMessage (o : NativeOracle) : Option (Option GoErr) :=
  (worker o false).firstMsg

/-- The Releaser of mutex_windows.go: the isAbandoned flag fixed at
construction. The release closure state lives in SysState. -/
structure Releaser where
  isAbandoned : Bool
deriving DecidableEq, Repr

/-- Releaser.IsAbandoned of mutex_windows.go: reads the field. -/
def IsAbandoned (r : Releaser) : Bool := r.isAbandoned

/-- Outcome of the acquiring call in the Releaser variant
(mutex_windows.go): the caller receives the first outcome message,
computes isAbandoned with errors.Is, fails on any other non-nil error,
and otherwise returns a Releaser with a nil error. crashed marks the
unreachable-panic branch where no message is ever sent. -/
inductive AcqResult where
  | crashed
  | failed (e : GoErr)
  | granted (r : Releaser)
deriving DecidableEq, Repr

/-- acquire of mutex_windows.go, caller side. -/
def acquireRes (o : NativeOracle) : AcqResult :=
  match firstMessage o with
  | none => AcqResult.crashed
  | some none => AcqResult.granted { isAbandoned := false }
  | some (some e) =>
    if e = GoErr.waitAbandoned then AcqResult.granted { isAbandoned := true }
    else AcqResult.failed e

/-- Outcome of the acquiring call in the function variant (part_000):
any non-nil first message, the abandoned error included, is returned to
the caller with a nil release function. -/
inductive AcqResultA where
  | crashed
  | failed (e : GoErr)
  | granted
deriving DecidableEq, Repr

/-- acquire of part_000, caller side. -/
def acquireResA (o : NativeOracle) : AcqResultA :=
  match firstMessage o with
  | none => AcqResultA.crashed
  | some none => AcqResultA.granted
  | some (some e) => AcqResultA.failed e

/-- State of the two channels and the worker at the moment a Releaser
(or release function) exists, and across later release calls.
chClosed: the release-signal channel ch has been closed.
workerHolding: the worker is blocked on its receive from ch with the
handle still open. releaseVal: the value the worker would send as its
second message (the ReleaseMutex result). chEClosed: the outcome
channel chE has been closed by the worker defer, so a receive yields
the zero value nil. nativeReleases counts ReleaseMutex calls made so
far; handleClosed records whether CloseHandle has run. -/
structure SysState where
  chClosed : Bool
  workerHolding : Bool
  releaseVal : Option GoErr
  chEClosed : Bool
  nativeReleases : Nat
  handleClosed : Bool
deriving DecidableEq, Repr

/-- What one invocation of the raw release closure
(close(ch); return <-chE) yields: a returned error value, a runtime
panic from closing an already-closed channel, or a receive that can
never complete. -/
inductive RelOutcome where
  | ok (e : Option GoErr)
  | panicked
  | blocked
deriving DecidableEq, Repr

/-- One invocation of the raw release closure of either variant:
if ch is already closed, close(ch) panics; otherwise closing ch wakes
a holding worker, which calls ReleaseMutex, sends its result, closes
the handle and chE, and exits; if the worker is already gone and chE
is closed, the receive yields nil; with nobody left to send and chE
open the receive blocks forever. -/
def releaseCall (s : SysState) : SysState × RelOutcome :=
  if s.chClosed then (s, RelOutcome.panicked)
  else if s.workerHolding then
    ({ chClosed := true, workerHolding := false, releaseVal := s.releaseVal,
       chEClosed := true, nativeReleases := s.nativeReleases + 1,
       handleClosed := true },
     RelOutcome.ok s.releaseVal)
  else if s.chEClosed then
    ({ s with chClosed := true }, RelOutcome.ok none)
  else
    ({ s with chClosed := true }, RelOutcome.blocked)

/-- Channel/worker state at the instant acquire of mutex_windows.go
returns a Releaser: on a signaled acquisition the worker is holding;
on an abandoned acquisition the worker has already sent its report,
closed the handle and chE, and exited. none on the failure paths,
which return no Releaser. -/
def initSysState (o : NativeOracle) : Option SysState :=
  match acquireRes o with
  | AcqResult.granted r =>
    if r.isAbandoned then
      some { chClosed := false, workerHolding := false,
             releaseVal := Option.map GoErr.native o.releaseErr,
             chEClosed := true, nativeReleases := 0, handleClosed := true }
    else
      some { chClosed := false, workerHolding := true,
             releaseVal := Option.map GoErr.native o.releaseErr,
             chEClosed := false, nativeReleases := 0, handleClosed := false }
  | _ => none

/-- sync.OnceValue wrapper state of part_000: the underlying channel
state plus the memoized result of the first invocation, if any. -/
structure OnceState where
  sys : SysState
  memo : Option RelOutcome
deriving DecidableEq, Repr

/-- One call of the sync.OnceValue-wrapped release function of
part_000: the first call runs the raw closure and memoizes its result;
every later call returns the memoized result without touching the
channels. -/
def onceRelease (s : OnceState) : OnceState × RelOutcome :=
  match s.memo with
  | some v => (s, v)
  | none =>
    let p := releaseCall s.sys
    ({ sys := p.1, memo := some p.2 }, p.2)

/-- State after n calls of the part_000 release function. -/
def onceIter (s : OnceState) : Nat → OnceState
  | 0 => s
  | n + 1 => (onceRelease (onceIter s n)).1

/-- Result of call number n + 1 of the part_000 release function
(after n earlier calls). -/
def onceOutcome (s : OnceState) (n : Nat) : RelOutcome :=
  (onceRelease (onceIter s n)).2

/-- Channel/worker state at the instant acquire of part_000 returns a
release function: only the signaled path grants one, with the worker
holding and the memo empty. -/
def initOnceState (o : NativeOracle) : Option OnceState :=
  match acquireResA o with
  | AcqResultA.granted =>
    some { sys := { chClosed := false, workerHolding := true,
                    releaseVal := Option.map GoErr.native o.releaseErr,
                    chEClosed := false, nativeReleases := 0,
                    handleClosed := false },
           memo := none }
  | _ => none

/-- One call of Releaser.Release in mutex_windows.go acting on the
Releaser together with the channel state: the closure only touches the
channels, so the Releaser value itself is carried through unchanged. -/
def releaseStep (p : Releaser × SysState) : (Releaser × SysState) × RelOutcome :=
  ((p.1, (releaseCall p.2).1), (releaseCall p.2).2)

/-- State of the Releaser and the channels after n calls of Release. -/
def releaseStepIter (p : Releaser × SysState) : Nat → Releaser × SysState
  | 0 => p
  | n + 1 => (releaseStep (releaseStepIter p n)).1

/-- What the public entry points observably do: whether a worker was
spawned, the wait bound handed to it, and the translated outcome. -/
structure CallResult where
  workerSpawned : Bool
  waitMillisecondsUsed : Option Nat
  result : AcqResult
deriving DecidableEq, Repr

/-- Acquire of mutex_windows.go: no duration validation, calls acquire
with windows.INFINITE. -/
def Acquire (o : NativeOracle) : CallResult :=
  { workerSpawned := true, waitMillisecondsUsed := some INFINITE,
    result := acquireRes o }

/-- AcquireWithTimeout of mutex_windows.go: rejects timeout >=
max_WAIT_MILLISECONDS with ErrDurationTooLong before doing anything
else, otherwise calls acquire with uint32(timeout.Milliseconds()). -/
def AcquireWithTimeout (timeout : Int) (o : NativeOracle) : CallResult :=
  if timeout ≥ max_WAIT_MILLISECONDS then
    { workerSpawned := false, waitMillisecondsUsed := none,
      result := AcqResult.failed GoErr.durationTooLong }
  else
    { workerSpawned := true,
      waitMillisecondsUsed := some (toUint32 (durMilliseconds timeout)),
      result := acquireRes o }

/-- Documented contract of WaitForSingleObject, which the repository
relies on (its switch has a comment calling the timeout case
unreachable under INFINITE and a panic on the default case): when the
call succeeds, the return value is WAIT_OBJECT_0, WAIT_ABANDONED, or —
only for a finite wait bound — WAIT_TIMEOUT. -/
def WaitResultValid (o : NativeOracle) (waitMs : Nat) : Prop :=
  o.waitErr = none →
    (o.waitResult = WAIT_OBJECT_0 ∨ o.waitResult = WAIT_ABANDONED ∨
      (o.waitResult = WAIT_TIMEOUT ∧ waitMs ≠ INFINITE))

instance (o : NativeOracle) (waitMs : Nat) : Decidable (WaitResultValid o waitMs) := by
  unfold WaitResultValid
  infer_instance

/-- Oracle of a clean signaled acquisition with a clean release. -/
def oSignaled : NativeOracle :=
  { createErr := none, waitErr := none, waitResult := WAIT_OBJECT_0,
    releaseErr := none }

/-- Oracle of an acquisition whose wait reports the abandoned status. -/
def oAbandoned : NativeOracle :=
  { createErr := none, waitErr := none, waitResult := WAIT_ABANDONED,
    releaseErr := none }

/-- Oracle of a bounded acquisition whose wait times out. -/
def oTimedOut : NativeOracle :=
  { createErr := none, waitErr := none, waitResult := WAIT_TIMEOUT,
    releaseErr := none }

/-- Concrete channel state produced by a signaled acquisition with a
clean release oracle. -/
def sSignaledInit : SysState :=
  { chClosed := false, workerHolding := true, releaseVal := none,
    chEClosed := false, nativeReleases := 0, handleClosed := false }

/-- Concrete channel state produced by an abandoned acquisition with a
clean release oracle. -/
def sAbandonedInit : SysState :=
  { chClosed := false, workerHolding := false, releaseVal := none,
    chEClosed := true, nativeReleases := 0, handleClosed := true }

/-- Concrete sync.OnceValue state produced by a signaled part_000
acquisition. -/
def onceInit : OnceState :=
  { sys := sSignaledInit, memo := none }

/-- Channel state right after a first release call that found the
worker holding: signal channel closed, worker gone, outcome channel
closed, one more ReleaseMutex call on the books, handle closed. -/
def sReleasedOf (v : Option GoErr) (k : Nat) : SysState :=
  { chClosed := true, workerHolding := false, releaseVal := v,
    chEClosed := true, nativeReleases := k + 1, handleClosed := true }

lemma onceRelease_of_memo (s : OnceState) (v : RelOutcome) (h : s.memo = some v) :
    onceRelease s = (s, v) := by
  unfold onceRelease
  rw [h]

lemma releaseCall_holding (s : SysState) (hc : s.chClosed = false)
    (hh : s.workerHolding = true) :
    releaseCall s
      = (sReleasedOf s.releaseVal s.nativeReleases, RelOutcome.ok s.releaseVal) := by
  unfold releaseCall sReleasedOf
  rw [hc, hh]
  simp

lemma releaseCall_after_closed (s : SysState) (hc : s.chClosed = true) :
    releaseCall s = (s, RelOutcome.panicked) := by
  unfold releaseCall
  rw [hc]
  simp

lemma releaseCall_not_holding (s : SysState) (hc : s.chClosed = false)
    (hh : s.workerHolding = false) :
    (releaseCall s).1 = { s with chClosed := true } := by
  unfold releaseCall
  rw [hc, hh]
  by_cases he : s.chEClosed <;> simp [he]

lemma initOnceState_fields (o : NativeOracle) (sA : OnceState)
    (hA : initOnceState o = some sA) :
    sA.memo = none ∧ sA.sys.chClosed = false ∧ sA.sys.workerHolding = true ∧
      sA.sys.nativeReleases = 0 := by
  unfold initOnceState at hA
  split at hA
  · injection hA with h
    subst h
    exact ⟨rfl, rfl, rfl, rfl⟩
  · simp at hA

lemma initSysState_fields (o : NativeOracle) (s : SysState)
    (h : initSysState o = some s) :
    s.chClosed = false ∧ s.nativeReleases = 0 := by
  unfold initSysState at h
  split at h
  · split_ifs at h <;> (injection h with h2; subst h2; exact ⟨rfl, rfl⟩)
  · simp at h

lemma onceIter_succ_stable (sA : OnceState) (hm : sA.memo = none)
    (hc : sA.sys.chClosed = false) (hh : sA.sys.workerHolding = true) :
    ∀ m, onceIter sA (m + 1)
      = ⟨sReleasedOf sA.sys.releaseVal sA.sys.nativeReleases,
         some (RelOutcome.ok sA.sys.releaseVal)⟩ := by
  have h1 : onceRelease sA
      = (⟨sReleasedOf sA.sys.releaseVal sA.sys.nativeReleases,
          some (RelOutcome.ok sA.sys.releaseVal)⟩,
         RelOutcome.ok sA.sys.releaseVal) := by
    unfold onceRelease
    rw [hm, releaseCall_holding sA.sys hc hh]
  intro m
  induction m with
  | zero =>
    show (onceRelease (onceIter sA 0)).1 = _
    rw [show onceIter sA 0 = sA from rfl, h1]
  | succ k ih =>
    show (onceRelease (onceIter sA (k + 1))).1 = _
    rw [ih, onceRelease_of_memo _ (RelOutcome.ok sA.sys.releaseVal) rfl]

lemma onceOutcome_memoized (sA : OnceState) (hm : sA.memo = none)
    (hc : sA.sys.chClosed = false) (hh : sA.sys.workerHolding = true) :
    ∀ n, onceOutcome sA n = RelOutcome.ok sA.sys.releaseVal := by
  have h1 : onceRelease sA
      = (⟨sReleasedOf sA.sys.releaseVal sA.sys.nativeReleases,
          some (RelOutcome.ok sA.sys.releaseVal)⟩,
         RelOutcome.ok sA.sys.releaseVal) := by
    unfold onceRelease
    rw [hm, releaseCall_holding sA.sys hc hh]
  intro n
  cases n with
  | zero =>
    show (onceRelease (onceIter sA 0)).2 = _
    rw [show onceIter sA 0 = sA from rfl, h1]
  | succ m =>
    show (onceRelease (onceIter sA (m + 1))).2 = _
    rw [onceIter_succ_stable sA hm hc hh m,
      onceRelease_of_memo _ (RelOutcome.ok sA.sys.releaseVal) rfl]

lemma releaseStepIter_fst (p : Releaser × SysState) (n : Nat) :
    (releaseStepIter p n).1 = p.1 := by
  induction n with
  | zero => rfl
  | succ n ih =>
    show (releaseStep (releaseStepIter p n)).1.1 = p.1
    rw [releaseStep]
    exact ih

lemma worker_createOk (o : NativeOracle) (s : Bool)
    (hc : o.createErr = none ∨ o.createErr = some NativeErr.alreadyExists) :
    worker o s = workerAfterCreate o s := by
  rcases hc with hc | hc <;> simp [worker, hc]

lemma workerAfterCreate_waitAttempted (o : NativeOracle) (s : Bool) :
    (workerAfterCreate o s).waitAttempted = true := by
  unfold workerAfterCreate
  cases hw : o.waitErr with
  | some e => simp
  | none =>
    simp only []
    split_ifs <;> rfl

/-- C9: a strictly negative timeout — here minus one millisecond —
passes the duration-too-long check (it is below the maximum), and
uint32(timeout.Milliseconds()) wraps modulo 2^32 to exactly the
INFINITE sentinel, so AcquireWithTimeout behaves like the unbounded
Acquire instead of failing validation or timing out immediately. -/
theorem c9_negative_one_ms_wraps_to_infinite (o : NativeOracle) :
    ¬ ((-1000000 : Int) ≥ max_WAIT_MILLISECONDS) ∧
    toUint32 (durMilliseconds (-1000000)) = INFINITE ∧
    AcquireWithTimeout (-1000000) o = Acquire o := by
  have hlt : ¬ ((-1000000 : Int) ≥ max_WAIT_MILLISECONDS) := by decide
  have hwrap : toUint32 (durMilliseconds (-1000000)) = INFINITE := by decide
  refine ⟨hlt, hwrap, ?_⟩
  rw [AcquireWithTimeout, if_neg hlt, hwrap, Acquire]

/-- C9 witness: the statement instantiated at the clean signaled
oracle. -/
theorem c9_witness :
    ¬ ((-1000000 : Int) ≥ max_WAIT_MILLISECONDS) ∧
    toUint32 (durMilliseconds (-1000000)) = INFINITE ∧
    AcquireWithTimeout (-1000000) oSignaled = Acquire oSignaled :=
  c9_negative_one_ms_wraps_to_infinite oSignaled

/-- C3: a timeout at or above max_WAIT_MILLISECONDS makes
AcquireWithTimeout return exactly the DurationTooLong failure with no
worker spawned and no dependence on the native API; any timeout
strictly below the maximum passes the check and the acquisition
proceeds with the converted wait bound. -/
theorem c3_duration_validation (timeout : Int) (o : NativeOracle) :
    if timeout ≥ max_WAIT_MILLISECONDS then
      AcquireWithTimeout timeout o =
        { workerSpawned := false, waitMillisecondsUsed := none,
          result := AcqResult.failed GoErr.durationTooLong }
    else
      (AcquireWithTimeout timeout o).workerSpawned = true ∧
      (AcquireWithTimeout timeout o).waitMillisecondsUsed
        = some (toUint32 (durMilliseconds timeout)) ∧
      (AcquireWithTimeout timeout o).result = acquireRes o := by
  by_cases h : timeout ≥ max_WAIT_MILLISECONDS
  · rw [if_pos h, AcquireWithTimeout, if_pos h]
  · rw [if_neg h, AcquireWithTimeout, if_neg h]
    exact ⟨rfl, rfl, rfl⟩

/-- C2 at the failing input: with a wait reporting WAIT_ABANDONED the
code does return a Releaser with IsAbandoned true (and a signaled wait
yields one with IsAbandoned false), but the worker never blocks on the
release-signal channel: it has already closed the handle and exited
even when the release signal is sent — ownership is not in fact
retained for the caller, contradicting the claim that the lock is
granted and held. -/
theorem c2_abandoned_returns_releaser_but_worker_exits :
    acquireRes oAbandoned = AcqResult.granted { isAbandoned := true } ∧
    IsAbandoned { isAbandoned := true } = true ∧
    acquireRes oSignaled = AcqResult.granted { isAbandoned := false } ∧
    (worker oAbandoned true).waitedForRelease = false ∧
    (worker oAbandoned true).handleClosed = true ∧
    (worker oAbandoned true).releaseCount = 0 ∧
    (worker oSignaled true).waitedForRelease = true := by
  decide

/-- C4: when a bounded wait reports WAIT_TIMEOUT, AcquireWithTimeout
returns no Releaser and the WaitTimeout error, and the worker performs
no release and has closed its handle, whether or not a release signal
is ever sent. -/
theorem c4_timeout_path (timeout : Int) (o : NativeOracle) (s : Bool)
    (hc : o.createErr = none ∨ o.createErr = some NativeErr.alreadyExists)
    (hw : o.waitErr = none) (hr : o.waitResult = WAIT_TIMEOUT)
    (ht : ¬ timeout ≥ max_WAIT_MILLISECONDS) :
    (AcquireWithTimeout timeout o).result = AcqResult.failed GoErr.waitTimeout ∧
    (worker o s).releaseCount = 0 ∧
    (worker o s).waitedForRelease = false ∧
    (worker o s).handleClosed = true := by
  have hwkr : worker o s =
      { firstMsg := some (some GoErr.waitTimeout), waitAttempted := true,
        waitedForRelease := false, releaseCount := 0, secondMsg := none,
        handleClosed := true, panicked := false } := by
    rw [worker_createOk o s hc]
    simp [workerAfterCreate, hw, hr, WAIT_TIMEOUT, WAIT_ABANDONED, WAIT_OBJECT_0]
  have hfirst : firstMessage o = some (some GoErr.waitTimeout) := by
    have : worker o false =
        { firstMsg := some (some GoErr.waitTimeout), waitAttempted := true,
          waitedForRelease := false, releaseCount := 0, secondMsg := none,
          handleClosed := true, panicked := false } := by
      rw [worker_createOk o false hc]
      simp [workerAfterCreate, hw, hr, WAIT_TIMEOUT, WAIT_ABANDONED, WAIT_OBJECT_0]
    rw [firstMessage, this]
  refine ⟨?_, ?_, ?_, ?_⟩
  · rw [AcquireWithTimeout, if_neg ht]
    simp [acquireRes, hfirst]
  · rw [hwkr]
  · rw [hwkr]
  · rw [hwkr]

/-- C4 witness: the timed-out oracle with a one-second timeout. -/
theorem c4_witness :
    (oTimedOut.createErr = none ∨ oTimedOut.createErr = some NativeErr.alreadyExists) ∧
    oTimedOut.waitErr = none ∧ oTimedOut.waitResult = WAIT_TIMEOUT ∧
    (1000000000 : Int) < max_WAIT_MILLISECONDS ∧
    ((AcquireWithTimeout 1000000000 oTimedOut).result
        = AcqResult.failed GoErr.waitTimeout ∧
      (worker oTimedOut false).releaseCount = 0 ∧
      (worker oTimedOut false).waitedForRelease = false ∧
      (worker oTimedOut false).handleClosed = true) :=
  ⟨by decide, by decide, by decide, by decide,
    c4_timeout_path 1000000000 oTimedOut false (by decide) (by decide)
      (by decide) (by decide)⟩

/-- C5: an already-exists creation result leaves the worker behaving
exactly as on a clean creation and the wait proceeds; any other
creation error is returned verbatim with no Releaser and no wait
attempted; a wait error is returned verbatim with no Releaser and no
release call. -/
theorem c5_creation_and_wait_failures (w rel : Option NativeErr)
    (rt c : Nat) (e : NativeErr) (s : Bool) :
    worker { createErr := some NativeErr.alreadyExists, waitErr := w,
             waitResult := rt, releaseErr := rel } s
      = worker { createErr := none, waitErr := w, waitResult := rt,
                 releaseErr := rel } s ∧
    (worker { createErr := some NativeErr.alreadyExists, waitErr := w,
              waitResult := rt, releaseErr := rel } s).waitAttempted = true ∧
    acquireRes { createErr := some (NativeErr.other c), waitErr := w,
                 waitResult := rt, releaseErr := rel }
      = AcqResult.failed (GoErr.native (NativeErr.other c)) ∧
    (worker { createErr := some (NativeErr.other c), waitErr := w,
              waitResult := rt, releaseErr := rel } s).waitAttempted = false ∧
    acquireRes { createErr := none, waitErr := some e, waitResult := rt,
                 releaseErr := rel }
      = AcqResult.failed (GoErr.native e) ∧
    (worker { createErr := none, waitErr := some e, waitResult := rt,
              releaseErr := rel } s).releaseCount = 0 := by
  refine ⟨rfl, ?_, ?_, ?_, ?_, ?_⟩
  · rw [worker_createOk _ s (Or.inr rfl), workerAfterCreate_waitAttempted]
  · simp [acquireRes, firstMessage, worker]
  · simp [worker]
  · simp [acquireRes, firstMessage, worker, workerAfterCreate]
  · simp [worker, workerAfterCreate]

/-- C6: the worker makes a ReleaseMutex call only when the release
signal has been sent, the creation succeeded (cleanly or as
already-exists), the wait returned without error with a successful
result, and then it makes exactly one; contrapositively, no release
call happens on any timed-out or failed path. -/
theorem c6_release_at_most_once_after_success (o : NativeOracle) (s : Bool)
    (h : 1 ≤ (worker o s).releaseCount) :
    s = true ∧
    (o.createErr = none ∨ o.createErr = some NativeErr.alreadyExists) ∧
    o.waitErr = none ∧
    (o.waitResult = WAIT_OBJECT_0 ∨ o.waitResult = WAIT_ABANDONED) ∧
    (worker o s).releaseCount = 1 := by
  obtain ⟨ce, we, wr, re⟩ := o
  cases ce with
  | none =>
    cases we with
    | none =>
      simp only [worker, workerAfterCreate] at h ⊢
      split_ifs at h ⊢ with h1 h2 h3 <;>
        simp_all
    | some e => simp [worker, workerAfterCreate] at h
  | some e =>
    cases e with
    | alreadyExists =>
      cases we with
      | none =>
        simp only [worker, workerAfterCreate, reduceCtorEq, if_true,
          show NativeErr.alreadyExists = NativeErr.alreadyExists from rfl] at h ⊢
        split_ifs at h ⊢ with h1 h2 h3 <;>
          simp_all
      | some e2 => simp [worker, workerAfterCreate] at h
    | other c => simp [worker] at h

/-- C6 witness: the clean signaled oracle with the signal sent. -/
theorem c6_witness :
    1 ≤ (worker oSignaled true).releaseCount ∧
    (true = true ∧
      (oSignaled.createErr = none ∨
        oSignaled.createErr = some NativeErr.alreadyExists) ∧
      oSignaled.waitErr = none ∧
      (oSignaled.waitResult = WAIT_OBJECT_0 ∨
        oSignaled.waitResult = WAIT_ABANDONED) ∧
      (worker oSignaled true).releaseCount = 1) :=
  ⟨by decide, c6_release_at_most_once_after_success oSignaled true (by decide)⟩

/-- C10: Acquire validates no duration and always waits with INFINITE;
under the documented WaitForSingleObject contract (no timeout result
for an unbounded wait), it never returns the WaitTimeout or
DurationTooLong errors — its only outcomes are a granted Releaser or a
native creation or wait failure. -/
theorem c10_acquire_never_times_out (o : NativeOracle)
    (h : WaitResultValid o INFINITE) :
    (Acquire o).waitMillisecondsUsed = some INFINITE ∧
    (Acquire o).result ≠ AcqResult.failed GoErr.waitTimeout ∧
    (Acquire o).result ≠ AcqResult.failed GoErr.durationTooLong ∧
    ((∃ r, (Acquire o).result = AcqResult.granted r) ∨
      (∃ e, (Acquire o).result = AcqResult.failed (GoErr.native e))) := by
  obtain ⟨ce, we, wr, re⟩ := o
  refine ⟨rfl, ?_⟩
  unfold WaitResultValid at h
  show (acquireRes ⟨ce, we, wr, re⟩ ≠ AcqResult.failed GoErr.waitTimeout ∧
    acquireRes ⟨ce, we, wr, re⟩ ≠ AcqResult.failed GoErr.durationTooLong ∧
    ((∃ r, acquireRes ⟨ce, we, wr, re⟩ = AcqResult.granted r) ∨
      (∃ e, acquireRes ⟨ce, we, wr, re⟩ = AcqResult.failed (GoErr.native e))))
  cases ce with
  | some e =>
    cases e with
    | alreadyExists =>
      cases we with
      | some e2 =>
        refine ⟨by simp [acquireRes, firstMessage, worker, workerAfterCreate], ?_, ?_⟩
        · simp [acquireRes, firstMessage, worker, workerAfterCreate]
        · exact Or.inr ⟨e2, by simp [acquireRes, firstMessage, worker, workerAfterCreate]⟩
      | none =>
        rcases h rfl with hv | hv | hv
        · rw [show wr = WAIT_OBJECT_0 from hv]
          exact ⟨by simp [acquireRes, firstMessage, worker, workerAfterCreate,
              WAIT_OBJECT_0, WAIT_ABANDONED],
            by simp [acquireRes, firstMessage, worker, workerAfterCreate,
              WAIT_OBJECT_0, WAIT_ABANDONED],
            Or.inl ⟨{ isAbandoned := false },
              by simp [acquireRes, firstMessage, worker, workerAfterCreate,
                WAIT_OBJECT_0, WAIT_ABANDONED]⟩⟩
        · rw [show wr = WAIT_ABANDONED from hv]
          exact ⟨by simp [acquireRes, firstMessage, worker, workerAfterCreate,
              WAIT_OBJECT_0, WAIT_ABANDONED],
            by simp [acquireRes, firstMessage, worker, workerAfterCreate,
              WAIT_OBJECT_0, WAIT_ABANDONED],
            Or.inl ⟨{ isAbandoned := true },
              by simp [acquireRes, firstMessage, worker, workerAfterCreate,
                WAIT_OBJECT_0, WAIT_ABANDONED]⟩⟩
        · exact absurd rfl hv.2
    | other c =>
      refine ⟨by simp [acquireRes, firstMessage, worker], ?_, ?_⟩
      · simp [acquireRes, firstMessage, worker]
      · exact Or.inr ⟨NativeErr.other c, by simp [acquireRes, firstMessage, worker]⟩
  | none =>
    cases we with
    | some e2 =>
      refine ⟨by simp [acquireRes, firstMessage, worker, workerAfterCreate], ?_, ?_⟩
      · simp [acquireRes, firstMessage, worker, workerAfterCreate]
      · exact Or.inr ⟨e2, by simp [acquireRes, firstMessage, worker, workerAfterCreate]⟩
    | none =>
      rcases h rfl with hv | hv | hv
      · rw [show wr = WAIT_OBJECT_0 from hv]
        exact ⟨by simp [acquireRes, firstMessage, worker, workerAfterCreate,
            WAIT_OBJECT_0, WAIT_ABANDONED],
          by simp [acquireRes, firstMessage, worker, workerAfterCreate,
            WAIT_OBJECT_0, WAIT_ABANDONED],
          Or.inl ⟨{ isAbandoned := false },
            by simp [acquireRes, firstMessage, worker, workerAfterCreate,
              WAIT_OBJECT_0, WAIT_ABANDONED]⟩⟩
      · rw [show wr = WAIT_ABANDONED from hv]
        exact ⟨by simp [acquireRes, firstMessage, worker, workerAfterCreate,
            WAIT_OBJECT_0, WAIT_ABANDONED],
          by simp [acquireRes, firstMessage, worker, workerAfterCreate,
            WAIT_OBJECT_0, WAIT_ABANDONED],
          Or.inl ⟨{ isAbandoned := true },
            by simp [acquireRes, firstMessage, worker, workerAfterCreate,
              WAIT_OBJECT_0, WAIT_ABANDONED]⟩⟩
      · exact absurd rfl hv.2

/-- C10 witness: the clean signaled oracle satisfies the wait contract
and yields a granted Releaser. -/
theorem c10_witness :
    WaitResultValid oSignaled INFINITE ∧
    ((Acquire oSignaled).waitMillisecondsUsed = some INFINITE ∧
      (Acquire oSignaled).result ≠ AcqResult.failed GoErr.waitTimeout ∧
      (Acquire oSignaled).result ≠ AcqResult.failed GoErr.durationTooLong ∧
      ((∃ r, (Acquire oSignaled).result = AcqResult.granted r) ∨
        (∃ e, (Acquire oSignaled).result = AcqResult.failed (GoErr.native e)))) :=
  ⟨by decide, c10_acquire_never_times_out oSignaled (by decide)⟩

/-- C1 counterexample: for the Releaser of mutex_windows.go obtained
from a clean signaled acquisition, the first Release call succeeds but
the second call does not return the memoized first result — it closes
the already-closed signal channel, a runtime panic. -/
theorem c1_counterexample_second_release_panics :
    initSysState oSignaled = some sSignaledInit ∧
    (releaseCall sSignaledInit).2 = RelOutcome.ok none ∧
    (releaseCall (releaseCall sSignaledInit).1).2 = RelOutcome.panicked := by
  decide

/-- C1 as amended: the part_000 release function, wrapped in
sync.OnceValue, is memoized — every call returns the first result and
the native release runs exactly once no matter how many calls follow;
the Releaser of mutex_windows.go is not memoized: its first call
performs the native release at most once, and any second call panics
by closing an already-closed channel, performing no further native
release. -/
theorem c1_once_memoized_releaser_single_use (o oB : NativeOracle)
    (sA : OnceState) (sB : SysState) (n : Nat)
    (hA : initOnceState o = some sA) (hB : initSysState oB = some sB) :
    onceOutcome sA n = onceOutcome sA 0 ∧
    (onceIter sA (n + 1)).sys.nativeReleases = 1 ∧
    (releaseCall sB).1.nativeReleases ≤ 1 ∧
    (releaseCall (releaseCall sB).1).2 = RelOutcome.panicked ∧
    (releaseCall (releaseCall sB).1).1.nativeReleases
      = (releaseCall sB).1.nativeReleases := by
  obtain ⟨hm, hc, hh, hn⟩ := initOnceState_fields o sA hA
  obtain ⟨hcB, hnB⟩ := initSysState_fields oB sB hB
  refine ⟨?_, ?_, ?_, ?_, ?_⟩
  · rw [onceOutcome_memoized sA hm hc hh n, onceOutcome_memoized sA hm hc hh 0]
  · rw [onceIter_succ_stable sA hm hc hh n]
    show sA.sys.nativeReleases + 1 = 1
    rw [hn]
  · cases hhB : sB.workerHolding with
    | true =>
      rw [releaseCall_holding sB hcB hhB]
      show sB.nativeReleases + 1 ≤ 1
      rw [hnB]
    | false =>
      rw [releaseCall_not_holding sB hcB hhB]
      show sB.nativeReleases ≤ 1
      rw [hnB]
      exact Nat.zero_le 1
  · cases hhB : sB.workerHolding with
    | true =>
      rw [releaseCall_holding sB hcB hhB, releaseCall_after_closed _ rfl]
    | false =>
      rw [releaseCall_not_holding sB hcB hhB, releaseCall_after_closed _ rfl]
  · cases hhB : sB.workerHolding with
    | true =>
      rw [releaseCall_holding sB hcB hhB, releaseCall_after_closed _ rfl]
    | false =>
      rw [releaseCall_not_holding sB hcB hhB, releaseCall_after_closed _ rfl]

/-- C1 witness: both variants instantiated on the clean signaled
oracle, with two follow-up calls on the once-wrapped function. -/
theorem c1_witness :
    initOnceState oSignaled = some onceInit ∧
    initSysState oSignaled = some sSignaledInit ∧
    (onceOutcome onceInit 2 = onceOutcome onceInit 0 ∧
      (onceIter onceInit 3).sys.nativeReleases = 1 ∧
      (releaseCall sSignaledInit).1.nativeReleases ≤ 1 ∧
      (releaseCall (releaseCall sSignaledInit).1).2 = RelOutcome.panicked ∧
      (releaseCall (releaseCall sSignaledInit).1).1.nativeReleases
        = (releaseCall sSignaledInit).1.nativeReleases) :=
  ⟨by decide, by decide,
    c1_once_memoized_releaser_single_use oSignaled oSignaled onceInit
      sSignaledInit 2 (by decide) (by decide)⟩

/-- C7 at the failing input: after an acquisition whose wait reported
WAIT_ABANDONED, the worker is already gone, so the first Release call
returns nil received from the closed outcome channel while zero native
ReleaseMutex calls ever happen, and the handle was closed during
acquisition — not the reported outcome of a native release call the
claim describes. On a signaled acquisition, by contrast, the first
call does drive exactly one native release. -/
theorem c7_abandoned_release_reports_nothing :
    initSysState oAbandoned = some sAbandonedInit ∧
    sAbandonedInit.workerHolding = false ∧
    sAbandonedInit.chEClosed = true ∧
    sAbandonedInit.handleClosed = true ∧
    (releaseCall sAbandonedInit).2 = RelOutcome.ok none ∧
    (releaseCall sAbandonedInit).1.nativeReleases = 0 ∧
    (worker oAbandoned true).releaseCount = 0 ∧
    (releaseCall sSignaledInit).1.nativeReleases = 1 := by
  decide

/-- C8: IsAbandoned reads the flag fixed at construction — it is true
exactly when the acquisition outcome message was the abandoned error —
and any number of Release calls carries the Releaser value through
unchanged, so IsAbandoned keeps answering the same. -/
theorem c8_isabandoned_pure_accessor (o : NativeOracle) (r : Releaser)
    (s : SysState) (n : Nat) (h : acquireRes o = AcqResult.granted r)
    (hs : initSysState o = some s) :
    (releaseStepIter (r, s) n).1 = r ∧
    IsAbandoned (releaseStepIter (r, s) n).1 = r.isAbandoned ∧
    (r.isAbandoned = true ↔ firstMessage o = some (some GoErr.waitAbandoned)) := by
  refine ⟨releaseStepIter_fst (r, s) n, ?_, ?_⟩
  · rw [releaseStepIter_fst]
    rfl
  · cases hf : firstMessage o with
    | none =>
      simp [acquireRes, hf] at h
    | some v =>
      cases v with
      | none =>
        simp only [acquireRes, hf] at h
        injection h with h2
        rw [← h2]
        simp [hf]
      | some e =>
        simp only [acquireRes, hf] at h
        by_cases he : e = GoErr.waitAbandoned
        · subst he
          rw [if_pos rfl] at h
          injection h with h2
          rw [← h2]
          simp
        · rw [if_neg he] at h
          cases h

/-- C8 witness: the abandoned-acquisition Releaser after three Release
calls. -/
theorem c8_witness :
    acquireRes oAbandoned = AcqResult.granted { isAbandoned := true } ∧
    initSysState oAbandoned = some sAbandonedInit ∧
    ((releaseStepIter ({ isAbandoned := true }, sAbandonedInit) 3).1
        = { isAbandoned := true } ∧
      IsAbandoned (releaseStepIter ({ isAbandoned := true }, sAbandonedInit) 3).1
        = true ∧
      (true = true ↔ firstMessage oAbandoned = some (some GoErr.waitAbandoned))) :=
  ⟨by decide, by decide,
    c8_isabandoned_pure_accessor oAbandoned { isAbandoned := true }
      sAbandonedInit 3 (by decide) (by decide)⟩

end KviiMutex
